import Mathlib

/-!
Shallow embedding of `src/bot.py` (QuranBot): the persisted progress record,
the month-rollover check, the posting gate, the chapter-metadata cache and
verse fetch, the tweet formatter, and the single-run orchestration.

Texts are modelled as lists of Unicode code points (`List Char`, matching
Python `len`/slicing on `str`), timestamps as integer seconds, and the two
external collaborators (the verse API and the Twitter client) as explicit
oracle inputs describing their responses.
-/

namespace QuranBotModel

/-- The persisted bot state (`quran_bot_state.json` / `self.state`). -/
structure BotState where
  current_chapter : Nat
  current_verse_number : Nat
  verses_posted_this_month : Nat
  current_month : Nat
  current_year : Int
  last_post_time : Option Int
  chapter_verse_count : Option Nat
  deriving Repr, DecidableEq

/-- Monthly limit constant (`self.MONTHLY_VERSE_LIMIT = 400`). -/
def MONTHLY_VERSE_LIMIT : Nat := 400

/-- The fixed allow-list of chapters in `select_monthly_chapter`. -/
def large_chapters : List Nat := [2, 3, 4, 5, 6, 7, 9, 10, 11, 12, 16, 17, 18, 20, 21, 26, 37]

/-- Python truthiness test on the `chapter_verse_count` field:
`None` and `0` are falsy. -/
def natOptFalsy : Option Nat → Bool
  | none => true
  | some 0 => true
  | some (_ + 1) => false

/-- Fresh state built by `create_initial_state`, parameterised by the
current month/year and the randomly drawn chapter. -/
def create_initial_state (m : Nat) (y : Int) (ch : Nat) : BotState :=
  { current_chapter := ch
    current_verse_number := 1
    verses_posted_this_month := 0
    current_month := m
    current_year := y
    last_post_time := none
    chapter_verse_count := none }

/-- The record fetched for one verse: `verse_data` in `get_next_verse`. -/
structure VerseData where
  arabic : List Char
  english : List Char
  surah_name : List Char
  surah_number : Nat
  ayah_number : Nat
  reference : List Char
  deriving Repr, DecidableEq

/-- Responses of the verse-content API for one `get_next_verse` call:
`metaResp = some c` means the surah-metadata request succeeded with
`numberOfAyahs = c`; `arabicOk` / `englishOk` tell whether each per-language
ayah request returned code 200. -/
structure FetchOracle where
  metaResp : Option Nat
  surahName : List Char
  arabicOk : Bool
  arabicText : List Char
  englishOk : Bool
  englishText : List Char
  deriving Repr, DecidableEq

/-- Environment of one `post_verse` call: the verse-API responses, whether
the `client` attribute exists (credential setup succeeded), whether
`create_tweet` returned response data, and the current time in seconds. -/
structure PostOracle where
  fetch : FetchOracle
  hasClient : Bool
  publishOk : Bool
  now : Int
  deriving Repr, DecidableEq

/-- The reference string `f"Surah {name} ({chapter}:{verse})"`. -/
def mkReference (name : List Char) (chapter verse : Nat) : List Char :=
  ("Surah ".toList) ++ name ++ (" (".toList) ++ (Nat.repr chapter).toList
    ++ [':'] ++ (Nat.repr verse).toList ++ [')']

/-- Model of `check_month_reset`, parameterised by the real current month/year and the
chapter draw used if a reset happens. Returns the new state and the list of
snapshots passed to `save_state`. -/
def check_month_reset (s : BotState) (m : Nat) (y : Int) (ch : Nat) :
    BotState × List BotState :=
  if m ≠ s.current_month ∨ y ≠ s.current_year then
    let s1 : BotState :=
      { current_chapter := ch
        current_verse_number := 1
        verses_posted_this_month := 0
        current_month := m
        current_year := y
        last_post_time := s.last_post_time
        chapter_verse_count := none }
    (s1, [s1])
  else (s, [])

/-- Model of `can_post_now`: deny when the monthly limit is reached, or when a last
post time exists and less than 3600 seconds have elapsed. -/
def can_post_now (s : BotState) (now : Int) : Bool :=
  if s.verses_posted_this_month ≥ MONTHLY_VERSE_LIMIT then false
  else
    match s.last_post_time with
    | none => true
    | some t => if now - t < 3600 then false else true

/-- Model of `get_chapter_info`: when `chapter_verse_count` is falsy, query the
metadata endpoint; on success cache the count, save, and return the data
(modelled by the count). In every other case — including the cached case,
where the Python function falls off the end of the `if` — return `None`. -/
def get_chapter_info (s : BotState) (metaResp : Option Nat) :
    BotState × Option Nat × List BotState :=
  if natOptFalsy s.chapter_verse_count then
    match metaResp with
    | some c =>
      let s1 := { s with chapter_verse_count := some c }
      (s1, some c, [s1])
    | none => (s, none, [])
  else (s, none, [])

/-- Model of `get_next_verse`: look up chapter info, wrap the cursor to 1 when it
exceeds the (just-cached) verse count, then fetch the verse in both
languages; returns the possibly mutated state, the verse record or `none`,
and the saved snapshots. -/
def get_next_verse (s : BotState) (o : FetchOracle) :
    BotState × Option VerseData × List BotState :=
  let chapter := s.current_chapter
  let verse := s.current_verse_number
  let gi := get_chapter_info s o.metaResp
  match gi.2.1 with
  | none => (gi.1, none, gi.2.2)
  | some c =>
    let verse1 := if c < verse then 1 else verse
    let s2 := if c < verse then { gi.1 with current_verse_number := 1 } else gi.1
    if o.arabicOk && o.englishOk then
      (s2,
        some
          { arabic := o.arabicText
            english := o.englishText
            surah_name := o.surahName
            surah_number := chapter
            ayah_number := verse1
            reference := mkReference o.surahName chapter verse1 },
        gi.2.2)
    else (s2, none, gi.2.2)

/-- Separator inserted between the Arabic text and the English text in the
composed tweet: newline, newline, opening quotation mark. -/
def sep1 : List Char := ['\n', '\n', '"']

/-- Separator inserted between the English text and the reference: closing
quotation mark, newline, newline, em-dash, space. -/
def sep2 : List Char := ['"', '\n', '\n', '—', ' ']

/-- The literal whose length is measured as fixed overhead in
`format_tweet` (`len of backslash-n backslash-n quote quote backslash-n
backslash-n em-dash space`). -/
def base_literal : List Char := ['\n', '\n', '"', '"', '\n', '\n', '—', ' ']

/-- Ellipsis appended to truncated translations. -/
def ellipsis : List Char := ['.', '.', '.']

/-- The full composed tweet before any length handling. -/
def tweet_compose (v : VerseData) : List Char :=
  v.arabic ++ sep1 ++ v.english ++ sep2 ++ v.reference

/-- Fixed overhead: Arabic text plus reference plus literal punctuation. -/
def base_length (v : VerseData) : Nat :=
  v.arabic.length + v.reference.length + base_literal.length

/-- Remaining budget for the English text: `280 - base_length - 3`. -/
def available_chars (v : VerseData) : Int :=
  280 - (base_length v : Int) - 3

/-- Model of `format_tweet`: compose the tweet; if it exceeds 280 code points and the
remaining budget exceeds 20, truncate the English text to the budget and
append the ellipsis; otherwise return the composition unchanged. -/
def format_tweet : Option VerseData → Option (List Char)
  | none => none
  | some v =>
    let tweet := tweet_compose v
    if 280 < tweet.length then
      if 20 < available_chars v then
        let truncated := v.english.take (available_chars v).toNat ++ ellipsis
        some (v.arabic ++ sep1 ++ truncated ++ sep2 ++ v.reference)
      else some tweet
    else some tweet

/-- Model of `post_verse`: gate, fetch, format, check the client, publish; on success
apply the four mutations (cursor, counter, timestamp, save). Returns the new
state, the boolean outcome, and the saved snapshots in order. -/
def post_verse (s : BotState) (o : PostOracle) : BotState × Bool × List BotState :=
  if can_post_now s o.now then
    let gv := get_next_verse s o.fetch
    match gv.2.1 with
    | some vd =>
      match format_tweet (some vd) with
      | some _ =>
        if o.hasClient then
          if o.publishOk then
            let s2 :=
              { gv.1 with
                current_verse_number := gv.1.current_verse_number + 1
                verses_posted_this_month := gv.1.verses_posted_this_month + 1
                last_post_time := some o.now }
            (s2, true, gv.2.2 ++ [s2])
          else (gv.1, false, gv.2.2)
        else (gv.1, false, gv.2.2)
      | none => (gv.1, false, gv.2.2)
    | none => (gv.1, false, gv.2.2)
  else (s, false, [])

/-- Model of `run_bot`: month-rollover check, then one post attempt; returns the
resulting state, the boolean success signal, and all saved snapshots. -/
def run_bot (s : BotState) (m : Nat) (y : Int) (ch : Nat) (o : PostOracle) :
    BotState × Bool × List BotState :=
  let r1 := check_month_reset s m y ch
  let r2 := post_verse r1.1 o
  (r2.1, r2.2.1, r1.2 ++ r2.2.2)

/-- Model of `main`: construct the bot (loading the persisted state, or creating a
fresh one with the given month/year/chapter draw), run one cycle, and return
the final state, the cycle outcome, and the process exit status. The Python
`main` ignores `run_bot`'s return value and never calls `sys.exit`, and
every exception inside the cycle is caught, so the interpreter always exits
with status 0. -/
def main_once (loaded : Option BotState) (m : Nat) (y : Int) (ch : Nat)
    (o : PostOracle) : BotState × Bool × Nat :=
  let s0 := match loaded with
    | some s => s
    | none => create_initial_state m y ch
  let r := run_bot s0 m y ch o
  (r.1, r.2.1, 0)

/-- Well-formedness of a fetch oracle: the verse-content API reports a
positive `numberOfAyahs` (the spec types `chapter_verse_count` as an
optional positive integer). -/
def FetchOracle.wf (o : FetchOracle) : Prop :=
  ∀ c, o.metaResp = some c → 0 < c

/-- One transition of the bot's state machine: a rollover check with the
chapter draw taken from the allow-list, a verse fetch, or a post attempt. -/
inductive Step : BotState → BotState → Prop where
  | reset (s : BotState) (m : Nat) (y : Int) (ch : Nat)
      (hch : ch ∈ large_chapters) : Step s (check_month_reset s m y ch).1
  | fetch (s : BotState) (o : FetchOracle) (hw : o.wf) :
      Step s (get_next_verse s o).1
  | post (s : BotState) (o : PostOracle) (hw : o.fetch.wf) :
      Step s (post_verse s o).1

/-- States reachable from some fresh record by rollover checks, verse
fetches, and post attempts. -/
def Reachable (s : BotState) : Prop :=
  ∃ m : Nat, ∃ y : Int, ∃ ch : Nat, ch ∈ large_chapters ∧
    Relation.ReflTransGen Step (create_initial_state m y ch) s

/-- Verse record with 250 Arabic code points, 50 English, a 30-character
reference: composition length 338, remaining budget −11. -/
def c4verse : VerseData :=
  { arabic := List.replicate 250 'ب'
    english := List.replicate 50 'b'
    surah_name := ['B']
    surah_number := 2
    ayah_number := 1
    reference := List.replicate 30 'r' }

/-- Verse record from the spec's truncation test: 50-character original,
30-character reference, English text long enough for a 400-character
composition. -/
def c5verse : VerseData :=
  { arabic := List.replicate 50 'ب'
    english := List.replicate 312 'b'
    surah_name := ['B']
    surah_number := 2
    ayah_number := 1
    reference := List.replicate 30 'r' }

/-- Verse record whose composition is 38 code points, well under the cap. -/
def c6verse : VerseData :=
  { arabic := List.replicate 10 'ب'
    english := List.replicate 10 'b'
    surah_name := ['B']
    surah_number := 2
    ayah_number := 1
    reference := List.replicate 10 'r' }

set_option maxRecDepth 16384 in
/-- C4: there is a verse record whose composition exceeds 280 code points
while the remaining budget `280 - overhead - 3` is at most 20, and on it the
formatter returns the untruncated composition, longer than 280 code
points. -/
theorem C4_oversized_budget_leq_20_untruncated :
    format_tweet (some c4verse) = some (tweet_compose c4verse) ∧
    280 < (tweet_compose c4verse).length ∧
    available_chars c4verse ≤ 20 := by
  refine ⟨by decide, by decide, by decide⟩

/-- C5: whenever the composition exceeds 280 code points and the remaining
budget `280 - overhead - 3` exceeds 20, the formatter truncates the English
text to the budget, appends the ellipsis, and the output is at most 280 code
points. -/
theorem C5_truncation_within_cap (v : VerseData)
    (h1 : 280 < (tweet_compose v).length)
    (h2 : 20 < available_chars v) :
    format_tweet (some v) =
      some (v.arabic ++ sep1 ++ (v.english.take (available_chars v).toNat ++ ellipsis)
        ++ sep2 ++ v.reference) ∧
    (v.arabic ++ sep1 ++ (v.english.take (available_chars v).toNat ++ ellipsis)
        ++ sep2 ++ v.reference).length ≤ 280 := by
  constructor
  · simp only [format_tweet]
    rw [if_pos h1, if_pos h2]
  · have hc := h1
    have hav := h2
    simp only [tweet_compose, List.length_append, sep1, sep2, List.length_cons,
      List.length_nil] at hc
    simp only [available_chars, base_length, base_literal, List.length_cons,
      List.length_nil] at hav ⊢
    simp only [List.length_append, List.length_take, List.length_cons, List.length_nil,
      ellipsis, sep1, sep2]
    omega

set_option maxRecDepth 16384 in
/-- C5 witness: the truncation theorem instantiated at the spec's example
record (50-character original, 30-character reference, 400-character
composition). -/
theorem C5_truncation_within_cap_witness :
    format_tweet (some c5verse) =
      some (c5verse.arabic ++ sep1
        ++ (c5verse.english.take (available_chars c5verse).toNat ++ ellipsis)
        ++ sep2 ++ c5verse.reference) ∧
    (c5verse.arabic ++ sep1
        ++ (c5verse.english.take (available_chars c5verse).toNat ++ ellipsis)
        ++ sep2 ++ c5verse.reference).length ≤ 280 :=
  C5_truncation_within_cap c5verse (by decide) (by decide)

/-- C6: whenever the composition is at most 280 code points, the formatter
returns it unmodified. -/
theorem C6_under_cap_identity (v : VerseData)
    (h : (tweet_compose v).length ≤ 280) :
    format_tweet (some v) = some (tweet_compose v) := by
  simp only [format_tweet]
  rw [if_neg (by omega)]

/-- C6 witness: the identity theorem instantiated at a 38-code-point
composition. -/
theorem C6_under_cap_identity_witness :
    format_tweet (some c6verse) = some (tweet_compose c6verse) :=
  C6_under_cap_identity c6verse (by decide)

/-- Holds when the hourly time gate does not block a post at time `now`:
either no last post time is recorded, or at least one hour has elapsed. -/
def timeGateOk (s : BotState) (now : Int) : Prop :=
  s.last_post_time = none ∨ ∃ t, s.last_post_time = some t ∧ 3600 ≤ now - t

/-- C8: gating denies when the monthly counter equals 400, and allows when
it equals 399 and the time gate is satisfied (no last post time, or at least
one hour elapsed). -/
theorem C8_quota_boundary (s : BotState) (now : Int) :
    (s.verses_posted_this_month = 400 → can_post_now s now = false) ∧
    (s.verses_posted_this_month = 399 → timeGateOk s now →
      can_post_now s now = true) := by
  constructor
  · intro h400
    unfold can_post_now
    rw [if_pos (by simp [MONTHLY_VERSE_LIMIT, h400])]
  · intro h399 hgate
    unfold can_post_now
    rw [if_neg (by simp [MONTHLY_VERSE_LIMIT, h399])]
    rcases hgate with hnone | ⟨t, ht, helapsed⟩
    · rw [hnone]
    · rw [ht]
      simp only [if_neg (by omega : ¬ now - t < 3600)]

/-- State with the monthly counter at the 400 limit. -/
def s400 : BotState :=
  { current_chapter := 2, current_verse_number := 5, verses_posted_this_month := 400,
    current_month := 1, current_year := 2024, last_post_time := none,
    chapter_verse_count := some 286 }

/-- State with the monthly counter at 399 and no last post time. -/
def s399 : BotState :=
  { current_chapter := 2, current_verse_number := 5, verses_posted_this_month := 399,
    current_month := 1, current_year := 2024, last_post_time := none,
    chapter_verse_count := some 286 }

/-- C8 witness: at the limit the gate denies, one below it allows. -/
theorem C8_quota_boundary_witness :
    can_post_now s400 0 = false ∧ can_post_now s399 0 = true :=
  ⟨(C8_quota_boundary s400 0).1 rfl,
   (C8_quota_boundary s399 0).2 rfl (Or.inl rfl)⟩

/-- C9: the month-rollover check is idempotent — a second call in the same
real (month, year) leaves the record unchanged, and when the stored month
and year already match, a single call is a no-op. -/
theorem C9_rollover_idempotent (s : BotState) (m : Nat) (y : Int)
    (ch1 ch2 : Nat) :
    (check_month_reset (check_month_reset s m y ch1).1 m y ch2).1 =
      (check_month_reset s m y ch1).1 ∧
    (s.current_month = m ∧ s.current_year = y →
      (check_month_reset s m y ch2).1 = s) := by
  constructor
  · unfold check_month_reset
    by_cases hc : m ≠ s.current_month ∨ y ≠ s.current_year
    · rw [if_pos hc]
      simp
    · rw [if_neg hc]
      simp only []
      rw [if_neg hc]
  · rintro ⟨hm, hy⟩
    unfold check_month_reset
    rw [if_neg (by simp [hm, hy])]

/-- C9 witness: a rollover from December 2023 into January 2024 followed by
a second January check, and a matching-period no-op. -/
theorem C9_rollover_idempotent_witness :
    (check_month_reset (check_month_reset s399 1 2024 3).1 1 2024 5).1 =
      (check_month_reset s399 1 2024 3).1 ∧
    (s399.current_month = 1 ∧ s399.current_year = 2024 →
      (check_month_reset s399 1 2024 5).1 = s399) :=
  C9_rollover_idempotent s399 1 2024 3 5

/-- State whose chapter verse count is already cached. -/
def c1state : BotState :=
  { current_chapter := 2, current_verse_number := 5, verses_posted_this_month := 3,
    current_month := 1, current_year := 2024, last_post_time := none,
    chapter_verse_count := some 286 }

/-- Oracle in which every external request succeeds: metadata is available
and both per-language verse fetches return code 200. -/
def c1oracle : FetchOracle :=
  { metaResp := some 286, surahName := ['B'], arabicOk := true,
    arabicText := ['ب'], englishOk := true, englishText := ['b'] }

/-- C1: with `chapter_verse_count` already cached and both per-language
sub-fetches succeeding, `get_next_verse` returns no verse record —
`get_chapter_info` falls off the end of its `if not cached` block and
returns `None`, which the caller treats as failure. This contradicts the
claim that fetching fails only when a sub-fetch or the metadata lookup
fails. -/
theorem C1_cached_metadata_fetch_fails :
    c1state.chapter_verse_count = some 286 ∧
    c1oracle.arabicOk = true ∧ c1oracle.englishOk = true ∧
    (get_next_verse c1state c1oracle).2.1 = none ∧
    (get_next_verse c1state c1oracle).1 = c1state := by
  refine ⟨rfl, rfl, rfl, by decide, by decide⟩

/-- Loaded state for the entry-point run: fresh-period record, nothing posted
yet. -/
def c2state : BotState :=
  { current_chapter := 2, current_verse_number := 1, verses_posted_this_month := 0,
    current_month := 1, current_year := 2024, last_post_time := none,
    chapter_verse_count := none }

/-- Run environment with missing credentials: the Twitter client was never
initialized, while the verse API responds normally. -/
def c2oracle : PostOracle :=
  { fetch := { metaResp := some 7, surahName := ['B'], arabicOk := true,
               arabicText := ['ب'], englishOk := true, englishText := ['b'] },
    hasClient := false, publishOk := true, now := 0 }

/-- C2 counterexample: a cycle that fails because the credentials are
missing (the client attribute is absent) still yields exit status 0, against
the claim that unexpected failures exit non-zero. -/
theorem C2_failed_cycle_exits_zero :
    (main_once (some c2state) 1 2024 2 c2oracle).2.1 = false ∧
    (main_once (some c2state) 1 2024 2 c2oracle).2.2 = 0 := by
  refine ⟨by decide, rfl⟩

/-- C2 amended: the entry point performs one full cycle and always exits
with status 0 — `main` ignores `run_bot`'s boolean signal, never calls
`sys.exit`, and every exception raised during the cycle is caught, so the
exit status does not distinguish success from failure. -/
theorem C2_exit_status_always_zero (loaded : Option BotState) (m : Nat)
    (y : Int) (ch : Nat) (o : PostOracle) :
    (main_once loaded m y ch o).2.2 = 0 := rfl

/-- C2 witness: the always-zero exit status at the concrete failing run. -/
theorem C2_exit_status_always_zero_witness :
    (main_once (some c2state) 1 2024 2 c2oracle).2.2 = 0 :=
  C2_exit_status_always_zero (some c2state) 1 2024 2 c2oracle

/-- The formatter never fails on a present verse record. -/
lemma format_tweet_isSome (v : VerseData) : (format_tweet (some v)).isSome = true := by
  simp only [format_tweet]
  by_cases h1 : 280 < (tweet_compose v).length
  · rw [if_pos h1]
    by_cases h2 : 20 < available_chars v
    · rw [if_pos h2]; rfl
    · rw [if_neg h2]; rfl
  · rw [if_neg h1]; rfl

/-- State shape after `get_next_verse`: either the record is untouched, or
the metadata lookup succeeded with count `c`, which is cached and the cursor
wrapped to 1 when it exceeded `c`. -/
lemma get_next_verse_state (s : BotState) (o : FetchOracle) :
    (get_next_verse s o).1 = s ∨
    ∃ c, o.metaResp = some c ∧
      (get_next_verse s o).1 =
        (if c < s.current_verse_number
         then { s with chapter_verse_count := some c, current_verse_number := 1 }
         else { s with chapter_verse_count := some c }) := by
  cases hcv : natOptFalsy s.chapter_verse_count
  · left
    simp [get_next_verse, get_chapter_info, hcv]
  · rcases hm : o.metaResp with _ | c
    · left
      simp [get_next_verse, get_chapter_info, hcv, hm]
    · right
      refine ⟨c, rfl, ?_⟩
      by_cases hlt : c < s.current_verse_number
      · rw [if_pos hlt]
        by_cases hb : (o.arabicOk && o.englishOk) = true <;>
          simp [get_next_verse, get_chapter_info, hcv, hm, hlt, hb]
      · rw [if_neg hlt]
        by_cases hb : (o.arabicOk && o.englishOk) = true <;>
          simp [get_next_verse, get_chapter_info, hcv, hm, hlt, hb]

/-- When `get_next_verse` returns a verse record, the metadata lookup
succeeded: the count is cached and the cursor wrapped into range. -/
lemma get_next_verse_success (s : BotState) (o : FetchOracle) (vd : VerseData)
    (h : (get_next_verse s o).2.1 = some vd) :
    ∃ c, o.metaResp = some c ∧
      (get_next_verse s o).1 =
        (if c < s.current_verse_number
         then { s with chapter_verse_count := some c, current_verse_number := 1 }
         else { s with chapter_verse_count := some c }) := by
  cases hcv : natOptFalsy s.chapter_verse_count
  · exfalso
    simp [get_next_verse, get_chapter_info, hcv] at h
  · rcases hm : o.metaResp with _ | c
    · exfalso
      simp [get_next_verse, get_chapter_info, hcv, hm] at h
    · refine ⟨c, rfl, ?_⟩
      by_cases hlt : c < s.current_verse_number
      · rw [if_pos hlt]
        by_cases hb : (o.arabicOk && o.englishOk) = true <;>
          simp [get_next_verse, get_chapter_info, hcv, hm, hlt, hb]
      · rw [if_neg hlt]
        by_cases hb : (o.arabicOk && o.englishOk) = true <;>
          simp [get_next_verse, get_chapter_info, hcv, hm, hlt, hb]

/-- Case analysis of one `post_verse` call: on a `false` outcome the state
is the one left by the gate or the fetch; on a `true` outcome the gate
passed, the fetch succeeded, and only the cursor, the counter, and the last
post time changed, with the final state appended as the last saved
snapshot. -/
lemma post_verse_state (s : BotState) (o : PostOracle) :
    ((post_verse s o).2.1 = false ∧
      ((post_verse s o).1 = s ∨ (post_verse s o).1 = (get_next_verse s o.fetch).1)) ∨
    ((post_verse s o).2.1 = true ∧ can_post_now s o.now = true ∧
      (∃ vd, (get_next_verse s o.fetch).2.1 = some vd) ∧
      (post_verse s o).1 =
        { (get_next_verse s o.fetch).1 with
          current_verse_number := (get_next_verse s o.fetch).1.current_verse_number + 1
          verses_posted_this_month :=
            (get_next_verse s o.fetch).1.verses_posted_this_month + 1
          last_post_time := some o.now } ∧
      (post_verse s o).2.2 = (get_next_verse s o.fetch).2.2 ++ [(post_verse s o).1]) := by
  by_cases hcp : can_post_now s o.now = true
  · rcases hg : (get_next_verse s o.fetch).2.1 with _ | vd
    · left
      constructor
      · simp [post_verse, hcp, hg]
      · right
        simp [post_verse, hcp, hg]
    · have hf := format_tweet_isSome vd
      rcases hft : format_tweet (some vd) with _ | t
      · rw [hft] at hf
        exact absurd hf (by simp)
      · by_cases hcl : o.hasClient = true
        · by_cases hpub : o.publishOk = true
          · right
            refine ⟨?_, hcp, ⟨vd, rfl⟩, ?_, ?_⟩
            · simp [post_verse, hcp, hg, hft, hcl, hpub]
            · simp [post_verse, hcp, hg, hft, hcl, hpub]
            · simp [post_verse, hcp, hg, hft, hcl, hpub]
          · left
            constructor
            · simp [post_verse, hcp, hg, hft, hcl, hpub]
            · right
              simp [post_verse, hcp, hg, hft, hcl, hpub]
        · left
          constructor
          · simp [post_verse, hcp, hg, hft, hcl]
          · right
            simp [post_verse, hcp, hg, hft, hcl]
  · left
    have hcpf : can_post_now s o.now = false := by
      cases hb : can_post_now s o.now
      · rfl
      · exact absurd hb hcp
    constructor
    · simp [post_verse, hcpf]
    · left
      simp [post_verse, hcpf]

/-- When the gate allows a post, the monthly counter is under the limit. -/
lemma can_post_now_lt (s : BotState) (now : Int)
    (h : can_post_now s now = true) :
    s.verses_posted_this_month < MONTHLY_VERSE_LIMIT := by
  by_contra hge
  have hge2 : s.verses_posted_this_month ≥ MONTHLY_VERSE_LIMIT := Nat.le_of_not_lt hge
  unfold can_post_now at h
  rw [if_pos hge2] at h
  exact Bool.noConfusion h

/-- Inductive invariant of the reachable states: the monthly counter stays
within the quota, the cursor stays positive, and once the verse count is
cached it is positive and the cursor is at most one past it. -/
def Inv (s : BotState) : Prop :=
  s.verses_posted_this_month ≤ MONTHLY_VERSE_LIMIT ∧
  1 ≤ s.current_verse_number ∧
  ∀ c, s.chapter_verse_count = some c →
    0 < c ∧ s.current_verse_number ≤ c + 1

/-- Fresh records satisfy the invariant. -/
lemma inv_init (m : Nat) (y : Int) (ch : Nat) :
    Inv (create_initial_state m y ch) := by
  refine ⟨by simp [create_initial_state, MONTHLY_VERSE_LIMIT], by simp [create_initial_state], ?_⟩
  intro c hc
  simp [create_initial_state] at hc

/-- The month-rollover check preserves the invariant. -/
lemma inv_reset (s : BotState) (m : Nat) (y : Int) (ch : Nat) (h : Inv s) :
    Inv (check_month_reset s m y ch).1 := by
  unfold check_month_reset
  by_cases hc : m ≠ s.current_month ∨ y ≠ s.current_year
  · rw [if_pos hc]
    refine ⟨by simp [MONTHLY_VERSE_LIMIT], by simp, ?_⟩
    intro c hcc
    simp at hcc
  · rw [if_neg hc]
    exact h

/-- A verse fetch with a well-formed oracle preserves the invariant. -/
lemma inv_fetch (s : BotState) (o : FetchOracle) (hw : o.wf) (h : Inv s) :
    Inv (get_next_verse s o).1 := by
  obtain ⟨h1, h2, h3⟩ := h
  rcases get_next_verse_state s o with heq | ⟨c, hm, heq⟩
  · rw [heq]; exact ⟨h1, h2, h3⟩
  · have hc : 0 < c := hw c hm
    rw [heq]
    by_cases hlt : c < s.current_verse_number
    · rw [if_pos hlt]
      refine ⟨h1, by simp, ?_⟩
      intro c2 hc2
      simp only [Option.some.injEq] at hc2
      subst hc2
      simp
      omega
    · rw [if_neg hlt]
      refine ⟨h1, h2, ?_⟩
      intro c2 hc2
      simp only [Option.some.injEq] at hc2
      subst hc2
      simp
      omega

/-- A post attempt with a well-formed oracle preserves the invariant. -/
lemma inv_post (s : BotState) (o : PostOracle) (hw : o.fetch.wf) (h : Inv s) :
    Inv (post_verse s o).1 := by
  rcases post_verse_state s o with ⟨_, heq | heq⟩ | ⟨_, hcp, ⟨vd, hvd⟩, heq, _⟩
  · rw [heq]; exact h
  · rw [heq]; exact inv_fetch s o.fetch hw h
  · obtain ⟨c, hm, hs1⟩ := get_next_verse_success s o.fetch vd hvd
    have hc : 0 < c := hw c hm
    have hvp : s.verses_posted_this_month < MONTHLY_VERSE_LIMIT :=
      can_post_now_lt s o.now hcp
    obtain ⟨h1, h2, h3⟩ := h
    rw [heq, hs1]
    by_cases hlt : c < s.current_verse_number
    · rw [if_pos hlt]
      refine ⟨by simp; omega, by simp, ?_⟩
      intro c2 hc2
      simp only [Option.some.injEq] at hc2
      subst hc2
      simp
      omega
    · have hle : s.current_verse_number ≤ c := Nat.le_of_not_lt hlt
      rw [if_neg hlt]
      refine ⟨by simp; omega, by simp, ?_⟩
      intro c2 hc2
      simp only [Option.some.injEq] at hc2
      subst hc2
      simp
      omega

/-- Every transition of the bot's state machine preserves the invariant. -/
lemma inv_step (s t : BotState) (hst : Step s t) (h : Inv s) : Inv t := by
  cases hst with
  | reset m y ch hch => exact inv_reset s m y ch h
  | fetch o hw => exact inv_fetch s o hw h
  | post o hw => exact inv_post s o hw h

/-- Every reachable state satisfies the invariant. -/
lemma reachable_inv (s : BotState) (h : Reachable s) : Inv s := by
  obtain ⟨m, y, ch, _, hsteps⟩ := h
  induction hsteps with
  | refl => exact inv_init m y ch
  | tail hab hbc ih => exact inv_step _ _ hbc ih

/-- C7: in every state reachable from a fresh record, the monthly counter
satisfies `0 <= verses_posted_this_month <= MONTHLY_VERSE_LIMIT`. -/
theorem C7_monthly_counter_bounds (s : BotState) (h : Reachable s) :
    0 ≤ s.verses_posted_this_month ∧
    s.verses_posted_this_month ≤ MONTHLY_VERSE_LIMIT :=
  ⟨Nat.zero_le _, (reachable_inv s h).1⟩

/-- Environment of a fully successful post against a 7-verse chapter. -/
def c7oracle : PostOracle :=
  { fetch := { metaResp := some 7, surahName := ['B'], arabicOk := true,
               arabicText := ['ب'], englishOk := true, englishText := ['b'] },
    hasClient := true, publishOk := true, now := 42 }

/-- Reachable state after one successful post from a fresh record. -/
def c7state : BotState := (post_verse (create_initial_state 1 2024 2) c7oracle).1

/-- C7 witness: the counter bound at the state after one successful post. -/
theorem C7_monthly_counter_bounds_witness :
    0 ≤ c7state.verses_posted_this_month ∧
    c7state.verses_posted_this_month ≤ MONTHLY_VERSE_LIMIT :=
  C7_monthly_counter_bounds c7state
    ⟨1, 2024, 2, by decide,
      Relation.ReflTransGen.single
        (Step.post _ c7oracle (by intro c hc; simp [c7oracle] at hc; omega))⟩

/-- C3 amended: in every reachable state, once `chapter_verse_count` is
known the record satisfies
`1 <= current_verse_number <= chapter_verse_count + 1`; the cursor may sit
one past the chapter end after a successful post of the final verse, and
wraps back to 1 only at the next fetch. -/
theorem C3_cursor_bounds (s : BotState) (h : Reachable s) :
    1 ≤ s.current_verse_number ∧
    ∀ c, s.chapter_verse_count = some c → s.current_verse_number ≤ c + 1 :=
  ⟨(reachable_inv s h).2.1, fun c hc => ((reachable_inv s h).2.2 c hc).2⟩

/-- Environment of a fully successful post against a 1-verse chapter. -/
def c3oracle : PostOracle :=
  { fetch := { metaResp := some 1, surahName := ['B'], arabicOk := true,
               arabicText := ['ب'], englishOk := true, englishText := ['b'] },
    hasClient := true, publishOk := true, now := 5 }

/-- C3 counterexample: a reachable state in which `chapter_verse_count` is
known to be 1 while `current_verse_number` is 2 — posting the final verse
advances the cursor past the chapter end, so
`current_verse_number <= chapter_verse_count` fails. -/
theorem C3_counterexample_cursor_exceeds_count :
    ∃ s : BotState, Reachable s ∧ s.chapter_verse_count = some 1 ∧
      ¬ s.current_verse_number ≤ 1 := by
  refine ⟨(post_verse (create_initial_state 1 2024 2) c3oracle).1,
    ⟨1, 2024, 2, by decide,
      Relation.ReflTransGen.single (Step.post _ c3oracle ?_)⟩, by decide, by decide⟩
  intro c hc
  simp [c3oracle] at hc
  omega

/-- Environment of a fully successful post against a 9-verse chapter. -/
def c3wit_oracle : PostOracle :=
  { fetch := { metaResp := some 9, surahName := ['B'], arabicOk := true,
               arabicText := ['ب'], englishOk := true, englishText := ['b'] },
    hasClient := true, publishOk := true, now := 77 }

/-- Reachable state after one successful post against a 9-verse chapter. -/
def c3wit_state : BotState :=
  (post_verse (create_initial_state 3 2025 4) c3wit_oracle).1

/-- C3 witness: the amended cursor bound at the state after one successful
post, where the verse count is cached. -/
theorem C3_cursor_bounds_witness :
    1 ≤ c3wit_state.current_verse_number ∧
    ∀ c, c3wit_state.chapter_verse_count = some c →
      c3wit_state.current_verse_number ≤ c + 1 :=
  C3_cursor_bounds c3wit_state
    ⟨3, 2025, 4, by decide,
      Relation.ReflTransGen.single
        (Step.post _ c3wit_oracle (by intro c hc; simp [c3wit_oracle] at hc; omega))⟩

/-- C10: whenever a publish succeeds, the resulting record is the record
left by the fetch with exactly three field changes — the cursor and the
monthly counter advance by 1 and the last post time is set to now — and
that record is persisted as the one final snapshot. -/
theorem C10_success_four_mutations (s : BotState) (o : PostOracle)
    (h : (post_verse s o).2.1 = true) :
    (post_verse s o).1 =
      { (get_next_verse s o.fetch).1 with
        current_verse_number := (get_next_verse s o.fetch).1.current_verse_number + 1
        verses_posted_this_month :=
          (get_next_verse s o.fetch).1.verses_posted_this_month + 1
        last_post_time := some o.now } ∧
    (post_verse s o).2.2 = (get_next_verse s o.fetch).2.2 ++ [(post_verse s o).1] := by
  rcases post_verse_state s o with ⟨hfalse, _⟩ | ⟨_, _, _, heq, hsaves⟩
  · rw [h] at hfalse
    exact Bool.noConfusion hfalse
  · exact ⟨heq, hsaves⟩

/-- Environment of a fully successful post against a 12-verse chapter. -/
def c10oracle : PostOracle :=
  { fetch := { metaResp := some 12, surahName := ['B'], arabicOk := true,
               arabicText := ['ب'], englishOk := true, englishText := ['b'] },
    hasClient := true, publishOk := true, now := 9 }

/-- C10 witness: the four-mutation characterisation at a concrete successful
post from a fresh record. -/
theorem C10_success_four_mutations_witness :
    (post_verse (create_initial_state 6 2025 5) c10oracle).1 =
      { (get_next_verse (create_initial_state 6 2025 5) c10oracle.fetch).1 with
        current_verse_number :=
          (get_next_verse (create_initial_state 6 2025 5) c10oracle.fetch).1.current_verse_number + 1
        verses_posted_this_month :=
          (get_next_verse (create_initial_state 6 2025 5) c10oracle.fetch).1.verses_posted_this_month + 1
        last_post_time := some c10oracle.now } ∧
    (post_verse (create_initial_state 6 2025 5) c10oracle).2.2 =
      (get_next_verse (create_initial_state 6 2025 5) c10oracle.fetch).2.2 ++
        [(post_verse (create_initial_state 6 2025 5) c10oracle).1] :=
  C10_success_four_mutations (create_initial_state 6 2025 5) c10oracle (by decide)

end QuranBotModel
